import Mathlib

/-!
Cluster API model (`pkg/api/types.go`): classification predicates.

Shallow embedding of the configuration entities of `pkg/api/types.go` and of
the six predicates defined on `*VnetProfile` and `*VMProfile`.

Modelling conventions

* a Go `string` is a Lean `String`; `len(s)` is the number of bytes of `s`
  (`lenString`);
* a Go pointer `*T` is `Option T`, `nil` being `none`;
* a Go slice `[]T` is `Option (List T)`: `none` is the `nil` slice, `some []`
  an allocated slice of length zero; `len` of both is `0` (`lenSlice`);
* a Go `int` element is an `Int` (no arithmetic is done on the elements);
* an expression that can fail at run time is a value of `Go α`
  (`Except GoPanic α`); selecting a field through a `nil` pointer is the only
  failure the predicates can reach;
* `q != nil` on a pointer is `Option.isSome q`;
* `a && b` evaluates `b` only when `a` is `true` (`andAlso`).
-/

namespace Api

/-! ## Go run-time model -/

/-- Run-time failure of a Go expression. -/
inductive GoPanic where
  | nilPointerDereference
  deriving DecidableEq, Repr

/-- Result of evaluating a Go expression: a value or a run-time failure. -/
abbrev Go (α : Type) := Except GoPanic α

deriving instance DecidableEq for Except

/-- Selecting through a pointer: fails on `nil`. -/
def deref {α : Type} : Option α → Go α
  | some v => Except.ok v
  | none => Except.error GoPanic.nilPointerDereference

/-- The short-circuit conjunction `a && b`: the right operand is evaluated only
when the left one is `true`. -/
def andAlso (a : Go Bool) (b : Unit → Go Bool) : Go Bool :=
  match a with
  | Except.error e => Except.error e
  | Except.ok false => Except.ok false
  | Except.ok true => b ()

/-- The builtin `len` on a string: its number of bytes. -/
def lenString (s : String) : Nat := s.utf8ByteSize

/-- The builtin `len` on a slice; the `nil` slice has length `0`. -/
def lenSlice {α : Type} : Option (List α) → Nat
  | none => 0
  | some xs => xs.length

/-! ## Entities -/

/-- The Go type `OSType`: a string. -/
abbrev OSType := String

/-- The Go type `OSName`: a string. -/
abbrev OSName := String

/-- The Go struct `OSImage`: OS image from the Azure image gallery. -/
structure OSImage where
  URL : String
  Publisher : String
  Offer : String
  SKU : String
  Version : String
  deriving DecidableEq, Repr

/-- The Go struct `OSDisk`: managed OS disk. -/
structure OSDisk where
  VHD : String
  VMGS : String
  StorageAccountID : String
  deriving DecidableEq, Repr

/-- The Go struct `VMProfile`: the definition of a VM. -/
structure VMProfile where
  Name : String
  OSType : OSType
  OSName : OSName
  OSDiskType : String
  OSImage : Option OSImage
  OSDisk : Option OSDisk
  DiskSizesGB : Option (List Int)
  VMSize : String
  Ports : Option (List Int)
  HasDNSName : Bool
  SecureBoot : Option Bool
  VTPM : Option Bool
  deriving DecidableEq, Repr

/-- The Go struct `VnetProfile`: the definition of a vnet. -/
structure VnetProfile where
  VnetResourceGroup : String
  VnetName : String
  VnetAddress : String
  SubnetName : String
  SubnetAddress : String
  deriving DecidableEq, Repr

/-- The Go struct `PublicKey`. -/
structure PublicKey where
  KeyData : String
  deriving DecidableEq, Repr

/-- The Go struct `LinuxProfile`. -/
structure LinuxProfile where
  AdminUsername : String
  AdminPassword : String
  SSHPubKeys : Option (List (Option PublicKey))
  deriving DecidableEq, Repr

/-- The Go struct `WindowsProfile`. -/
structure WindowsProfile where
  AdminUsername : String
  AdminPassword : String
  SSHPubKey : String
  deriving DecidableEq, Repr

/-- The Go struct `DiagnosticsProfile`. -/
structure DiagnosticsProfile where
  Enabled : Bool
  StorageAccountName : String
  IsNewStorageAccount : Bool
  deriving DecidableEq, Repr

/-- The Go struct `Properties`: every member is a pointer and may be `nil`. -/
structure Properties where
  VnetProfile : Option VnetProfile
  VMProfile : Option VMProfile
  LinuxProfile : Option LinuxProfile
  WindowsProfile : Option WindowsProfile
  DiagnosticsProfile : Option DiagnosticsProfile
  deriving DecidableEq, Repr

/-! ## Predicates

Each method has a pointer receiver; the receiver is therefore an `Option`.
Every field selection `p.F` goes through `deref p`, every `h.OSImage.F`
through `deref` of the receiver and then of `h.OSImage`. -/

/-- `(p *VnetProfile) IsCustomVNET`:
`len(p.VnetResourceGroup) > 0 && len(p.VnetName) > 0 && len(p.SubnetName) > 0`. -/
def VnetProfile.IsCustomVNET (p : Option VnetProfile) : Go Bool :=
  andAlso
    (andAlso
      (do let v ← deref p; pure (decide (lenString v.VnetResourceGroup > 0)))
      (fun _ => do let v ← deref p; pure (decide (lenString v.VnetName > 0))))
    (fun _ => do let v ← deref p; pure (decide (lenString v.SubnetName > 0)))

/-- `(h *VMProfile) HasAzureGalleryImage`:
`h.OSImage != nil && len(h.OSImage.Publisher) > 0 && len(h.OSImage.Offer) > 0
 && len(h.OSImage.SKU) > 0`. -/
def VMProfile.HasAzureGalleryImage (h : Option VMProfile) : Go Bool :=
  andAlso
    (andAlso
      (andAlso
        (do let v ← deref h; pure v.OSImage.isSome)
        (fun _ => do
          let v ← deref h
          let img ← deref v.OSImage
          pure (decide (lenString img.Publisher > 0))))
      (fun _ => do
        let v ← deref h
        let img ← deref v.OSImage
        pure (decide (lenString img.Offer > 0))))
    (fun _ => do
      let v ← deref h
      let img ← deref v.OSImage
      pure (decide (lenString img.SKU > 0)))

/-- `(h *VMProfile) HasCustomOsImage`:
`h.OSImage != nil && len(h.OSImage.URL) > 0`. -/
def VMProfile.HasCustomOsImage (h : Option VMProfile) : Go Bool :=
  andAlso
    (do let v ← deref h; pure v.OSImage.isSome)
    (fun _ => do
      let v ← deref h
      let img ← deref v.OSImage
      pure (decide (lenString img.URL > 0)))

/-- `(h *VMProfile) HasAttachedOsDisk`:
`h.OSDisk != nil && len(h.OSDisk.VHD) > 0`. -/
def VMProfile.HasAttachedOsDisk (h : Option VMProfile) : Go Bool :=
  andAlso
    (do let v ← deref h; pure v.OSDisk.isSome)
    (fun _ => do
      let v ← deref h
      let dsk ← deref v.OSDisk
      pure (decide (lenString dsk.VHD > 0)))

/-- `(h *VMProfile) HasAttachedOsDiskVMGS`:
`h.OSDisk != nil && len(h.OSDisk.VMGS) > 0`. -/
def VMProfile.HasAttachedOsDiskVMGS (h : Option VMProfile) : Go Bool :=
  andAlso
    (do let v ← deref h; pure v.OSDisk.isSome)
    (fun _ => do
      let v ← deref h
      let dsk ← deref v.OSDisk
      pure (decide (lenString dsk.VMGS > 0)))

/-- `(h *VMProfile) HasDisks`: `len(h.DiskSizesGB) > 0`. -/
def VMProfile.HasDisks (h : Option VMProfile) : Go Bool := do
  let v ← deref h
  pure (decide (lenSlice v.DiskSizesGB > 0))

/-! ## Sample values -/

/-- The zero value of `VnetProfile`. -/
def emptyVnetProfile : VnetProfile :=
  ⟨"", "", "", "", ""⟩

/-- The zero value of `VMProfile`. -/
def emptyVMProfile : VMProfile :=
  ⟨"", "", "", "", none, none, none, "", none, false, none, none⟩

/-- A profile naming both a complete gallery image and an existing disk. -/
def galleryAndDiskProfile : VMProfile :=
  { emptyVMProfile with
    OSImage := some ⟨"", "canonical", "ubuntu", "22.04", ""⟩
    OSDisk := some ⟨"https://acct/os.vhd", "", ""⟩ }

/-- A profile whose image carries a URL together with publisher, offer and SKU. -/
def urlAndGalleryProfile : VMProfile :=
  { emptyVMProfile with
    OSImage := some ⟨"https://example/os.vhd", "canonical", "ubuntu", "22.04", ""⟩ }

/-- A profile with data disks and neither image nor disk reference. -/
def dataDisksOnlyProfile : VMProfile :=
  { emptyVMProfile with Name := "vm", DiskSizesGB := some [128] }

/-- The `Properties` value obtained from the document with no member at all: every
pointer is `nil`. -/
def emptyProperties : Properties :=
  ⟨none, none, none, none, none⟩

/-- The answers of the four image and disk predicates on a profile, in source order. -/
def modeReports (h : VMProfile) : List (Go Bool) :=
  [VMProfile.HasAzureGalleryImage (some h), VMProfile.HasCustomOsImage (some h),
   VMProfile.HasAttachedOsDisk (some h), VMProfile.HasAttachedOsDiskVMGS (some h)]

/-- A profile built to give the five `VMProfile` predicates prescribed answers. -/
def profileWithAnswers (gallery custom disk vmgs disks : Bool) : VMProfile :=
  { emptyVMProfile with
    OSImage := some ⟨if custom then "https://example/os.vhd" else "",
      if gallery then "canonical" else "", if gallery then "ubuntu" else "",
      if gallery then "22.04" else "", ""⟩
    OSDisk := some ⟨if disk then "https://acct/os.vhd" else "",
      if vmgs then "https://acct/os.vmgs" else "", ""⟩
    DiskSizesGB := if disks then some [128] else none }

/-- A validated-looking profile: ports inside `1..65535`, every scalar member set. -/
def validatedProfile : VMProfile :=
  { Name := "vm0", OSType := "Linux", OSName := "ubuntu", OSDiskType := "Premium_LRS",
    OSImage := some ⟨"", "canonical", "ubuntu", "22.04", "latest"⟩,
    OSDisk := some ⟨"https://acct/os.vhd", "", "acct"⟩,
    DiskSizesGB := some [128], VMSize := "Standard_D2", Ports := some [22, 443],
    HasDNSName := true, SecureBoot := some true, VTPM := some false }

/-- The same image, disk and data disks as `validatedProfile` with every other member
different, the ports lying outside `1..65535`. -/
def unvalidatedProfile : VMProfile :=
  { validatedProfile with
    Name := "", OSType := "Windows", OSName := "", OSDiskType := "", VMSize := "",
    Ports := some [0, 70000, -1], HasDNSName := false, SecureBoot := none, VTPM := none }

/-! ## Basic facts on `len` -/

theorem lenString_pos_iff (s : String) : 0 < lenString s ↔ s ≠ "" := by
  obtain ⟨cs⟩ := s
  cases cs with
  | nil => simp [lenString, String.utf8ByteSize, String.utf8ByteSize.go]
  | cons c cs =>
    have hc := Char.utf8Size_pos c
    constructor
    · intro _ h
      have := congrArg String.data h
      simp at this
    · intro _
      simp only [lenString, String.utf8ByteSize, String.utf8ByteSize.go]
      omega

theorem decide_lenString_pos (s : String) :
    decide (lenString s > 0) = decide (s ≠ "") := by
  have := lenString_pos_iff s
  by_cases h : s = "" <;> simp_all

theorem lenSlice_pos_iff {α : Type} (xs : Option (List α)) :
    0 < lenSlice xs ↔ ∃ y ys, xs = some (y :: ys) := by
  cases xs with
  | none => simp [lenSlice]
  | some l =>
    cases l with
    | nil => simp [lenSlice]
    | cons y ys => simp [lenSlice]

/-! ## Evaluation of `&&` -/

theorem andAlso_ok (a : Bool) (b : Unit → Go Bool) :
    andAlso (Except.ok a) b = if a then b () else Except.ok false := by
  cases a <;> rfl

theorem andAlso_ok_ok (a b : Bool) :
    andAlso (Except.ok a) (fun _ => Except.ok b) = Except.ok (a && b) := by
  cases a <;> rfl

/-! ## Closed forms of the predicates on a non-`nil` receiver -/

theorem IsCustomVNET_some (p : VnetProfile) :
    VnetProfile.IsCustomVNET (some p) =
      Except.ok (decide (p.VnetResourceGroup ≠ "") && decide (p.VnetName ≠ "")
        && decide (p.SubnetName ≠ "")) := by
  simp only [VnetProfile.IsCustomVNET, deref, bind, Except.bind, pure, Except.pure,
    decide_lenString_pos, andAlso_ok_ok]

theorem HasAzureGalleryImage_some_none (h : VMProfile) (hi : h.OSImage = none) :
    VMProfile.HasAzureGalleryImage (some h) = Except.ok false := by
  simp [VMProfile.HasAzureGalleryImage, deref, bind, Except.bind, pure, Except.pure, hi,
    andAlso]

theorem HasAzureGalleryImage_some_some (h : VMProfile) (img : OSImage)
    (hi : h.OSImage = some img) :
    VMProfile.HasAzureGalleryImage (some h) =
      Except.ok (decide (img.Publisher ≠ "") && decide (img.Offer ≠ "")
        && decide (img.SKU ≠ "")) := by
  simp only [VMProfile.HasAzureGalleryImage, deref, bind, Except.bind, pure, Except.pure, hi,
    decide_lenString_pos, andAlso_ok_ok]
  simp

theorem HasCustomOsImage_some_none (h : VMProfile) (hi : h.OSImage = none) :
    VMProfile.HasCustomOsImage (some h) = Except.ok false := by
  simp [VMProfile.HasCustomOsImage, deref, bind, Except.bind, pure, Except.pure, hi, andAlso]

theorem HasCustomOsImage_some_some (h : VMProfile) (img : OSImage)
    (hi : h.OSImage = some img) :
    VMProfile.HasCustomOsImage (some h) = Except.ok (decide (img.URL ≠ "")) := by
  simp only [VMProfile.HasCustomOsImage, deref, bind, Except.bind, pure, Except.pure, hi,
    decide_lenString_pos, andAlso_ok_ok]
  simp

theorem HasAttachedOsDisk_some_none (h : VMProfile) (hd : h.OSDisk = none) :
    VMProfile.HasAttachedOsDisk (some h) = Except.ok false := by
  simp [VMProfile.HasAttachedOsDisk, deref, bind, Except.bind, pure, Except.pure, hd, andAlso]

theorem HasAttachedOsDisk_some_some (h : VMProfile) (dsk : OSDisk)
    (hd : h.OSDisk = some dsk) :
    VMProfile.HasAttachedOsDisk (some h) = Except.ok (decide (dsk.VHD ≠ "")) := by
  simp only [VMProfile.HasAttachedOsDisk, deref, bind, Except.bind, pure, Except.pure, hd,
    decide_lenString_pos, andAlso_ok_ok]
  simp

theorem HasAttachedOsDiskVMGS_some_none (h : VMProfile) (hd : h.OSDisk = none) :
    VMProfile.HasAttachedOsDiskVMGS (some h) = Except.ok false := by
  simp [VMProfile.HasAttachedOsDiskVMGS, deref, bind, Except.bind, pure, Except.pure, hd,
    andAlso]

theorem HasAttachedOsDiskVMGS_some_some (h : VMProfile) (dsk : OSDisk)
    (hd : h.OSDisk = some dsk) :
    VMProfile.HasAttachedOsDiskVMGS (some h) = Except.ok (decide (dsk.VMGS ≠ "")) := by
  simp only [VMProfile.HasAttachedOsDiskVMGS, deref, bind, Except.bind, pure, Except.pure, hd,
    decide_lenString_pos, andAlso_ok_ok]
  simp

theorem HasDisks_some (h : VMProfile) :
    VMProfile.HasDisks (some h) = Except.ok (decide (lenSlice h.DiskSizesGB > 0)) := by
  simp only [VMProfile.HasDisks, deref, bind, Except.bind, pure, Except.pure]

/-! ## Totality on a non-`nil` receiver, failure on a `nil` one -/

theorem HasAzureGalleryImage_some_ok (h : VMProfile) :
    ∃ b, VMProfile.HasAzureGalleryImage (some h) = Except.ok b := by
  cases hi : h.OSImage with
  | none => exact ⟨_, HasAzureGalleryImage_some_none h hi⟩
  | some img => exact ⟨_, HasAzureGalleryImage_some_some h img hi⟩

theorem HasCustomOsImage_some_ok (h : VMProfile) :
    ∃ b, VMProfile.HasCustomOsImage (some h) = Except.ok b := by
  cases hi : h.OSImage with
  | none => exact ⟨_, HasCustomOsImage_some_none h hi⟩
  | some img => exact ⟨_, HasCustomOsImage_some_some h img hi⟩

theorem HasAttachedOsDisk_some_ok (h : VMProfile) :
    ∃ b, VMProfile.HasAttachedOsDisk (some h) = Except.ok b := by
  cases hd : h.OSDisk with
  | none => exact ⟨_, HasAttachedOsDisk_some_none h hd⟩
  | some dsk => exact ⟨_, HasAttachedOsDisk_some_some h dsk hd⟩

theorem HasAttachedOsDiskVMGS_some_ok (h : VMProfile) :
    ∃ b, VMProfile.HasAttachedOsDiskVMGS (some h) = Except.ok b := by
  cases hd : h.OSDisk with
  | none => exact ⟨_, HasAttachedOsDiskVMGS_some_none h hd⟩
  | some dsk => exact ⟨_, HasAttachedOsDiskVMGS_some_some h dsk hd⟩

theorem IsCustomVNET_nil :
    VnetProfile.IsCustomVNET none = Except.error GoPanic.nilPointerDereference := rfl

theorem HasAzureGalleryImage_nil :
    VMProfile.HasAzureGalleryImage none = Except.error GoPanic.nilPointerDereference := rfl

theorem HasCustomOsImage_nil :
    VMProfile.HasCustomOsImage none = Except.error GoPanic.nilPointerDereference := rfl

theorem HasAttachedOsDisk_nil :
    VMProfile.HasAttachedOsDisk none = Except.error GoPanic.nilPointerDereference := rfl

theorem HasAttachedOsDiskVMGS_nil :
    VMProfile.HasAttachedOsDiskVMGS none = Except.error GoPanic.nilPointerDereference := rfl

theorem HasDisks_nil :
    VMProfile.HasDisks none = Except.error GoPanic.nilPointerDereference := rfl

/-- A call returns a boolean exactly when its receiver is set, for a method that fails on
the `nil` receiver and returns on every other one. -/
theorem ok_iff_receiver_set {α : Type} (f : Option α → Go Bool)
    (hnil : f none = Except.error GoPanic.nilPointerDereference)
    (hsome : ∀ a, ∃ b, f (some a) = Except.ok b) (r : Option α) :
    (∃ b, f r = Except.ok b) ↔ r ≠ none := by
  cases r with
  | none => simp [hnil]
  | some a => simpa using hsome a

/-! ## Network classification -/

/-- C1: on every `VnetProfile` value `IsCustomVNET` returns a boolean, and the boolean is
`true` exactly when `VnetResourceGroup`, `VnetName` and `SubnetName` are all non-empty.
A profile with at least one of the three empty gets `false`, which is also the answer
for every profile with all three empty. -/
theorem IsCustomVNET_true_iff_all_nonempty (p : VnetProfile) :
    (∃ b, VnetProfile.IsCustomVNET (some p) = Except.ok b) ∧
    (VnetProfile.IsCustomVNET (some p) = Except.ok true ↔
      p.VnetResourceGroup ≠ "" ∧ p.VnetName ≠ "" ∧ p.SubnetName ≠ "") ∧
    (p.VnetResourceGroup = "" ∨ p.VnetName = "" ∨ p.SubnetName = "" →
      VnetProfile.IsCustomVNET (some p) = Except.ok false ∧
      ∀ q : VnetProfile, q.VnetResourceGroup = "" → q.VnetName = "" → q.SubnetName = "" →
        VnetProfile.IsCustomVNET (some p) = VnetProfile.IsCustomVNET (some q)) := by
  refine ⟨⟨_, IsCustomVNET_some p⟩, ?_, ?_⟩
  · rw [IsCustomVNET_some]
    simp [and_assoc]
  · intro hp
    have hfalse : VnetProfile.IsCustomVNET (some p) = Except.ok false := by
      rw [IsCustomVNET_some]
      rcases hp with hp | hp | hp <;> simp [hp]
    refine ⟨hfalse, ?_⟩
    intro q h1 h2 h3
    rw [hfalse, IsCustomVNET_some]
    simp [h1]

/-- Witness of C1: a profile naming a resource group and a subnet but no vnet is answered
`false`, like the zero profile; one naming all three is answered `true`. -/
theorem IsCustomVNET_true_iff_all_nonempty_witness :
    (VnetProfile.IsCustomVNET (some ⟨"rg", "", "10.0.0.0/16", "sn", "10.0.0.0/24"⟩)
        = Except.ok false ∧
      VnetProfile.IsCustomVNET (some ⟨"rg", "", "10.0.0.0/16", "sn", "10.0.0.0/24"⟩)
        = VnetProfile.IsCustomVNET (some emptyVnetProfile)) ∧
    VnetProfile.IsCustomVNET (some ⟨"rg", "vn", "", "sn", ""⟩) = Except.ok true :=
  ⟨⟨((IsCustomVNET_true_iff_all_nonempty
        ⟨"rg", "", "10.0.0.0/16", "sn", "10.0.0.0/24"⟩).2.2 (Or.inr (Or.inl rfl))).1,
     ((IsCustomVNET_true_iff_all_nonempty
        ⟨"rg", "", "10.0.0.0/16", "sn", "10.0.0.0/24"⟩).2.2 (Or.inr (Or.inl rfl))).2
        emptyVnetProfile rfl rfl rfl⟩,
   (IsCustomVNET_true_iff_all_nonempty ⟨"rg", "vn", "", "sn", ""⟩).2.1.mpr
     ⟨by decide, by decide, by decide⟩⟩

/-! ## Compute image and disk classification -/

/-- C2: on every `VMProfile` value `HasAzureGalleryImage` returns a boolean, `true` exactly
when `OSImage` is present with `Publisher`, `Offer` and `SKU` all non-empty. It is `true`
for publisher "canonical", offer "ubuntu", SKU "22.04" and `false` as soon as one of the
three is empty. -/
theorem HasAzureGalleryImage_true_iff (h : VMProfile) :
    (∃ b, VMProfile.HasAzureGalleryImage (some h) = Except.ok b) ∧
    (VMProfile.HasAzureGalleryImage (some h) = Except.ok true ↔
      ∃ img, h.OSImage = some img ∧ img.Publisher ≠ "" ∧ img.Offer ≠ "" ∧ img.SKU ≠ "") ∧
    (∀ url ver : String,
      VMProfile.HasAzureGalleryImage
        (some { h with OSImage := some ⟨url, "canonical", "ubuntu", "22.04", ver⟩ })
        = Except.ok true) ∧
    (∀ img, h.OSImage = some img →
      (img.Publisher = "" ∨ img.Offer = "" ∨ img.SKU = "") →
      VMProfile.HasAzureGalleryImage (some h) = Except.ok false) := by
  refine ⟨?_, ?_, ?_, ?_⟩
  · cases hi : h.OSImage with
    | none => exact ⟨_, HasAzureGalleryImage_some_none h hi⟩
    | some img => exact ⟨_, HasAzureGalleryImage_some_some h img hi⟩
  · cases hi : h.OSImage with
    | none => simp [HasAzureGalleryImage_some_none h hi]
    | some img => simp [HasAzureGalleryImage_some_some h img hi, and_assoc]
  · intro url ver
    rw [HasAzureGalleryImage_some_some _ ⟨url, "canonical", "ubuntu", "22.04", ver⟩ rfl]
    simp
  · intro img hi hempty
    rw [HasAzureGalleryImage_some_some h img hi]
    rcases hempty with he | he | he <;> simp [he]

/-- Witness of C2: a gallery image without an offer is not reported. -/
theorem HasAzureGalleryImage_true_iff_witness :
    VMProfile.HasAzureGalleryImage
      (some { emptyVMProfile with OSImage := some ⟨"", "canonical", "", "22.04", ""⟩ })
      = Except.ok false :=
  (HasAzureGalleryImage_true_iff
    { emptyVMProfile with OSImage := some ⟨"", "canonical", "", "22.04", ""⟩ }).2.2.2
    ⟨"", "canonical", "", "22.04", ""⟩ rfl (Or.inr (Or.inl rfl))

/-- C3: on every `VMProfile` value `HasCustomOsImage` returns a boolean, `true` exactly when
`OSImage` is present with a non-empty `URL`; `Publisher`, `Offer`, `SKU` and `Version`
have no influence. -/
theorem HasCustomOsImage_true_iff (h : VMProfile) :
    (∃ b, VMProfile.HasCustomOsImage (some h) = Except.ok b) ∧
    (VMProfile.HasCustomOsImage (some h) = Except.ok true ↔
      ∃ img, h.OSImage = some img ∧ img.URL ≠ "") ∧
    (∀ url publisher offer sku version : String,
      VMProfile.HasCustomOsImage
        (some { h with OSImage := some ⟨url, publisher, offer, sku, version⟩ })
        = Except.ok (decide (url ≠ ""))) := by
  refine ⟨?_, ?_, ?_⟩
  · cases hi : h.OSImage with
    | none => exact ⟨_, HasCustomOsImage_some_none h hi⟩
    | some img => exact ⟨_, HasCustomOsImage_some_some h img hi⟩
  · cases hi : h.OSImage with
    | none => simp [HasCustomOsImage_some_none h hi]
    | some img => simp [HasCustomOsImage_some_some h img hi]
  · intro url publisher offer sku version
    exact HasCustomOsImage_some_some _ ⟨url, publisher, offer, sku, version⟩ rfl

/-- C4: on every `VMProfile` value `HasAttachedOsDisk` returns a boolean, `true` exactly
when `OSDisk` is present with a non-empty `VHD`; `VMGS` and `StorageAccountID` have no
influence. -/
theorem HasAttachedOsDisk_true_iff (h : VMProfile) :
    (∃ b, VMProfile.HasAttachedOsDisk (some h) = Except.ok b) ∧
    (VMProfile.HasAttachedOsDisk (some h) = Except.ok true ↔
      ∃ dsk, h.OSDisk = some dsk ∧ dsk.VHD ≠ "") ∧
    (∀ vhd vmgs account : String,
      VMProfile.HasAttachedOsDisk (some { h with OSDisk := some ⟨vhd, vmgs, account⟩ })
        = Except.ok (decide (vhd ≠ ""))) := by
  refine ⟨?_, ?_, ?_⟩
  · cases hd : h.OSDisk with
    | none => exact ⟨_, HasAttachedOsDisk_some_none h hd⟩
    | some dsk => exact ⟨_, HasAttachedOsDisk_some_some h dsk hd⟩
  · cases hd : h.OSDisk with
    | none => simp [HasAttachedOsDisk_some_none h hd]
    | some dsk => simp [HasAttachedOsDisk_some_some h dsk hd]
  · intro vhd vmgs account
    exact HasAttachedOsDisk_some_some _ ⟨vhd, vmgs, account⟩ rfl

/-- C5: on every `VMProfile` value `HasAttachedOsDiskVMGS` returns a boolean, `true` exactly
when `OSDisk` is present with a non-empty `VMGS`. For an `OSDisk` with a non-empty `VHD`,
`HasAttachedOsDisk` is `true`, and `HasAttachedOsDiskVMGS` is `false` while `VMGS` is empty
and `true` once `VMGS` is non-empty as well. -/
theorem HasAttachedOsDiskVMGS_true_iff (h : VMProfile) :
    (∃ b, VMProfile.HasAttachedOsDiskVMGS (some h) = Except.ok b) ∧
    (VMProfile.HasAttachedOsDiskVMGS (some h) = Except.ok true ↔
      ∃ dsk, h.OSDisk = some dsk ∧ dsk.VMGS ≠ "") ∧
    (∀ dsk, h.OSDisk = some dsk → dsk.VHD ≠ "" →
      VMProfile.HasAttachedOsDisk (some h) = Except.ok true ∧
      (dsk.VMGS = "" → VMProfile.HasAttachedOsDiskVMGS (some h) = Except.ok false) ∧
      (dsk.VMGS ≠ "" → VMProfile.HasAttachedOsDiskVMGS (some h) = Except.ok true)) := by
  refine ⟨?_, ?_, ?_⟩
  · cases hd : h.OSDisk with
    | none => exact ⟨_, HasAttachedOsDiskVMGS_some_none h hd⟩
    | some dsk => exact ⟨_, HasAttachedOsDiskVMGS_some_some h dsk hd⟩
  · cases hd : h.OSDisk with
    | none => simp [HasAttachedOsDiskVMGS_some_none h hd]
    | some dsk => simp [HasAttachedOsDiskVMGS_some_some h dsk hd]
  · intro dsk hd hvhd
    rw [HasAttachedOsDisk_some_some h dsk hd, HasAttachedOsDiskVMGS_some_some h dsk hd]
    refine ⟨by simp [hvhd], ?_, ?_⟩
    · intro hv
      simp [hv]
    · intro hv
      simp [hv]

/-- Witness of C5: a disk with a VHD and no VMGS is an attached disk without guest state;
with a VMGS as well both predicates hold. -/
theorem HasAttachedOsDiskVMGS_true_iff_witness :
    (VMProfile.HasAttachedOsDisk
        (some { emptyVMProfile with OSDisk := some ⟨"https://acct/os.vhd", "", ""⟩ })
        = Except.ok true ∧
      VMProfile.HasAttachedOsDiskVMGS
        (some { emptyVMProfile with OSDisk := some ⟨"https://acct/os.vhd", "", ""⟩ })
        = Except.ok false) ∧
    (VMProfile.HasAttachedOsDisk
        (some { emptyVMProfile with
          OSDisk := some ⟨"https://acct/os.vhd", "https://acct/os.vmgs", ""⟩ })
        = Except.ok true ∧
      VMProfile.HasAttachedOsDiskVMGS
        (some { emptyVMProfile with
          OSDisk := some ⟨"https://acct/os.vhd", "https://acct/os.vmgs", ""⟩ })
        = Except.ok true) :=
  ⟨⟨((HasAttachedOsDiskVMGS_true_iff
        { emptyVMProfile with OSDisk := some ⟨"https://acct/os.vhd", "", ""⟩ }).2.2
        ⟨"https://acct/os.vhd", "", ""⟩ rfl (by decide)).1,
     ((HasAttachedOsDiskVMGS_true_iff
        { emptyVMProfile with OSDisk := some ⟨"https://acct/os.vhd", "", ""⟩ }).2.2
        ⟨"https://acct/os.vhd", "", ""⟩ rfl (by decide)).2.1 rfl⟩,
   ⟨((HasAttachedOsDiskVMGS_true_iff
        { emptyVMProfile with
          OSDisk := some ⟨"https://acct/os.vhd", "https://acct/os.vmgs", ""⟩ }).2.2
        ⟨"https://acct/os.vhd", "https://acct/os.vmgs", ""⟩ rfl (by decide)).1,
     ((HasAttachedOsDiskVMGS_true_iff
        { emptyVMProfile with
          OSDisk := some ⟨"https://acct/os.vhd", "https://acct/os.vmgs", ""⟩ }).2.2
        ⟨"https://acct/os.vhd", "https://acct/os.vmgs", ""⟩ rfl (by decide)).2.2 (by decide)⟩⟩

/-- C6: on every `VMProfile` value `HasDisks` returns a boolean, `true` exactly when
`DiskSizesGB` has at least one element: `false` for the absent and for the empty sequence,
`true` for `[128]` and for every other non-empty sequence, whatever its elements. -/
theorem HasDisks_true_iff (h : VMProfile) :
    (∃ b, VMProfile.HasDisks (some h) = Except.ok b) ∧
    (VMProfile.HasDisks (some h) = Except.ok true ↔
      ∃ y ys, h.DiskSizesGB = some (y :: ys)) ∧
    VMProfile.HasDisks (some { h with DiskSizesGB := none }) = Except.ok false ∧
    VMProfile.HasDisks (some { h with DiskSizesGB := some [] }) = Except.ok false ∧
    VMProfile.HasDisks (some { h with DiskSizesGB := some [128] }) = Except.ok true ∧
    (∀ (y : Int) (ys : List Int),
      VMProfile.HasDisks (some { h with DiskSizesGB := some (y :: ys) }) = Except.ok true) := by
  refine ⟨⟨_, HasDisks_some h⟩, ?_, ?_, ?_, ?_, ?_⟩
  · rw [HasDisks_some]
    simpa using lenSlice_pos_iff h.DiskSizesGB
  · simp [HasDisks_some, lenSlice]
  · simp [HasDisks_some, lenSlice]
  · simp [HasDisks_some, lenSlice]
  · intro y ys
    simp [HasDisks_some, lenSlice]

/-! ## Relations between the image and disk predicates -/

/-- Counterexample to C7: on a profile with a complete `OSImage` and an `OSDisk` carrying a
VHD, `HasAzureGalleryImage` and `HasAttachedOsDisk` are both `true`, so it is false that at
most one of the four predicates holds on every profile. -/
theorem modes_not_mutually_exclusive :
    VMProfile.HasAzureGalleryImage (some galleryAndDiskProfile) = Except.ok true ∧
    VMProfile.HasAttachedOsDisk (some galleryAndDiskProfile) = Except.ok true ∧
    ¬ (∀ h : VMProfile, (modeReports h).count (Except.ok true) ≤ 1) := by
  refine ⟨by decide, by decide, ?_⟩
  intro hall
  have h2 := hall galleryAndDiskProfile
  revert h2
  decide

/-- C7, amended: the four predicates are evaluated independently and resolve no winner.
`HasAzureGalleryImage` and `HasCustomOsImage` do not depend on `OSDisk`, `HasAttachedOsDisk`
and `HasAttachedOsDiskVMGS` do not depend on `OSImage`; an image predicate and a disk
predicate are never both `true` on a profile where `OSImage` or `OSDisk` is absent, and
with both present the gallery image and the attached disk are each reported from their
own fields. -/
theorem image_and_disk_modes_independent (h : VMProfile) :
    (∀ d : Option OSDisk,
      VMProfile.HasAzureGalleryImage (some { h with OSDisk := d })
        = VMProfile.HasAzureGalleryImage (some h) ∧
      VMProfile.HasCustomOsImage (some { h with OSDisk := d })
        = VMProfile.HasCustomOsImage (some h)) ∧
    (∀ i : Option OSImage,
      VMProfile.HasAttachedOsDisk (some { h with OSImage := i })
        = VMProfile.HasAttachedOsDisk (some h) ∧
      VMProfile.HasAttachedOsDiskVMGS (some { h with OSImage := i })
        = VMProfile.HasAttachedOsDiskVMGS (some h)) ∧
    (h.OSImage = none ∨ h.OSDisk = none →
      ¬ ((VMProfile.HasAzureGalleryImage (some h) = Except.ok true ∨
            VMProfile.HasCustomOsImage (some h) = Except.ok true) ∧
          (VMProfile.HasAttachedOsDisk (some h) = Except.ok true ∨
            VMProfile.HasAttachedOsDiskVMGS (some h) = Except.ok true))) ∧
    (∀ img dsk, h.OSImage = some img → h.OSDisk = some dsk →
      VMProfile.HasAzureGalleryImage (some h)
        = Except.ok (decide (img.Publisher ≠ "" ∧ img.Offer ≠ "" ∧ img.SKU ≠ "")) ∧
      VMProfile.HasAttachedOsDisk (some h) = Except.ok (decide (dsk.VHD ≠ ""))) := by
  refine ⟨fun d => ⟨rfl, rfl⟩, fun i => ⟨rfl, rfl⟩, ?_, ?_⟩
  · rintro (hi | hd)
    · rw [HasAzureGalleryImage_some_none h hi, HasCustomOsImage_some_none h hi]
      simp
    · rw [HasAttachedOsDisk_some_none h hd, HasAttachedOsDiskVMGS_some_none h hd]
      simp
  · intro img dsk hi hd
    rw [HasAzureGalleryImage_some_some h img hi, HasAttachedOsDisk_some_some h dsk hd]
    simp [Bool.and_assoc]

/-- Witness of the amended C7: the profile with the gallery image alone reports no disk
mode, and adding the disk reports both the gallery image and the attached disk. -/
theorem image_and_disk_modes_independent_witness :
    ¬ ((VMProfile.HasAzureGalleryImage
            (some { galleryAndDiskProfile with OSDisk := none }) = Except.ok true ∨
          VMProfile.HasCustomOsImage
            (some { galleryAndDiskProfile with OSDisk := none }) = Except.ok true) ∧
        (VMProfile.HasAttachedOsDisk
            (some { galleryAndDiskProfile with OSDisk := none }) = Except.ok true ∨
          VMProfile.HasAttachedOsDiskVMGS
            (some { galleryAndDiskProfile with OSDisk := none }) = Except.ok true)) ∧
    (VMProfile.HasAzureGalleryImage (some galleryAndDiskProfile)
        = Except.ok (decide (("canonical" : String) ≠ "" ∧ ("ubuntu" : String) ≠ "" ∧
            ("22.04" : String) ≠ "")) ∧
      VMProfile.HasAttachedOsDisk (some galleryAndDiskProfile)
        = Except.ok (decide (("https://acct/os.vhd" : String) ≠ ""))) :=
  ⟨(image_and_disk_modes_independent
      { galleryAndDiskProfile with OSDisk := none }).2.2.1 (Or.inr rfl),
   (image_and_disk_modes_independent galleryAndDiskProfile).2.2.2
      ⟨"", "canonical", "ubuntu", "22.04", ""⟩ ⟨"https://acct/os.vhd", "", ""⟩ rfl rfl⟩

/-- C8: some `VMProfile` value makes `HasCustomOsImage` and `HasAzureGalleryImage` both
`true`; this happens whenever `OSImage` is present with `URL`, `Publisher`, `Offer` and
`SKU` all non-empty, neither predicate suppressing the other. -/
theorem custom_and_gallery_image_both_true :
    (∃ h : VMProfile,
      VMProfile.HasCustomOsImage (some h) = Except.ok true ∧
      VMProfile.HasAzureGalleryImage (some h) = Except.ok true) ∧
    (∀ (h : VMProfile) (img : OSImage), h.OSImage = some img →
      img.URL ≠ "" → img.Publisher ≠ "" → img.Offer ≠ "" → img.SKU ≠ "" →
      VMProfile.HasCustomOsImage (some h) = Except.ok true ∧
      VMProfile.HasAzureGalleryImage (some h) = Except.ok true) := by
  have hall : ∀ (h : VMProfile) (img : OSImage), h.OSImage = some img →
      img.URL ≠ "" → img.Publisher ≠ "" → img.Offer ≠ "" → img.SKU ≠ "" →
      VMProfile.HasCustomOsImage (some h) = Except.ok true ∧
      VMProfile.HasAzureGalleryImage (some h) = Except.ok true := by
    intro h img hi hu hp ho hs
    rw [HasCustomOsImage_some_some h img hi, HasAzureGalleryImage_some_some h img hi]
    simp [hu, hp, ho, hs]
  refine ⟨⟨urlAndGalleryProfile, ?_⟩, hall⟩
  exact hall urlAndGalleryProfile
    ⟨"https://example/os.vhd", "canonical", "ubuntu", "22.04", ""⟩ rfl
    (by decide) (by decide) (by decide) (by decide)

/-- Witness of C8: URL "https://example/os.vhd" with publisher "canonical", offer "ubuntu"
and SKU "22.04". -/
theorem custom_and_gallery_image_both_true_witness :
    VMProfile.HasCustomOsImage (some urlAndGalleryProfile) = Except.ok true ∧
    VMProfile.HasAzureGalleryImage (some urlAndGalleryProfile) = Except.ok true :=
  custom_and_gallery_image_both_true.2 urlAndGalleryProfile
    ⟨"https://example/os.vhd", "canonical", "ubuntu", "22.04", ""⟩ rfl
    (by decide) (by decide) (by decide) (by decide)

/-! ## Absent references -/

/-- Counterexample to C9: the `Properties` value of the document without any member has
`nil` `VnetProfile` and `VMProfile`; each of the six predicates called on them fails with
a nil-pointer dereference, so not every `Properties` value gives a boolean. -/
theorem predicates_fail_on_unset_profiles :
    VnetProfile.IsCustomVNET emptyProperties.VnetProfile
      = Except.error GoPanic.nilPointerDereference ∧
    VMProfile.HasAzureGalleryImage emptyProperties.VMProfile
      = Except.error GoPanic.nilPointerDereference ∧
    VMProfile.HasCustomOsImage emptyProperties.VMProfile
      = Except.error GoPanic.nilPointerDereference ∧
    VMProfile.HasAttachedOsDisk emptyProperties.VMProfile
      = Except.error GoPanic.nilPointerDereference ∧
    VMProfile.HasAttachedOsDiskVMGS emptyProperties.VMProfile
      = Except.error GoPanic.nilPointerDereference ∧
    VMProfile.HasDisks emptyProperties.VMProfile
      = Except.error GoPanic.nilPointerDereference ∧
    ¬ (∀ props : Properties,
        (∃ b, VnetProfile.IsCustomVNET props.VnetProfile = Except.ok b) ∧
        (∃ b, VMProfile.HasDisks props.VMProfile = Except.ok b)) := by
  refine ⟨rfl, rfl, rfl, rfl, rfl, rfl, ?_⟩
  intro hall
  obtain ⟨⟨b, hb⟩, _⟩ := hall emptyProperties
  have hnil : VnetProfile.IsCustomVNET emptyProperties.VnetProfile
      = Except.error GoPanic.nilPointerDereference := rfl
  rw [hnil] at hb
  cases hb

/-- C9, amended: for every `Properties` value, `IsCustomVNET` on its `VnetProfile` yields a
boolean exactly when the `VnetProfile` reference is set, and each of the five `VMProfile`
predicates yields a boolean exactly when the `VMProfile` reference is set. -/
theorem predicates_ok_iff_profiles_set (props : Properties) :
    ((∃ b, VnetProfile.IsCustomVNET props.VnetProfile = Except.ok b)
      ↔ props.VnetProfile ≠ none) ∧
    ((∃ b, VMProfile.HasAzureGalleryImage props.VMProfile = Except.ok b)
      ↔ props.VMProfile ≠ none) ∧
    ((∃ b, VMProfile.HasCustomOsImage props.VMProfile = Except.ok b)
      ↔ props.VMProfile ≠ none) ∧
    ((∃ b, VMProfile.HasAttachedOsDisk props.VMProfile = Except.ok b)
      ↔ props.VMProfile ≠ none) ∧
    ((∃ b, VMProfile.HasAttachedOsDiskVMGS props.VMProfile = Except.ok b)
      ↔ props.VMProfile ≠ none) ∧
    ((∃ b, VMProfile.HasDisks props.VMProfile = Except.ok b)
      ↔ props.VMProfile ≠ none) :=
  ⟨ok_iff_receiver_set _ IsCustomVNET_nil (fun p => ⟨_, IsCustomVNET_some p⟩) _,
   ok_iff_receiver_set _ HasAzureGalleryImage_nil HasAzureGalleryImage_some_ok _,
   ok_iff_receiver_set _ HasCustomOsImage_nil HasCustomOsImage_some_ok _,
   ok_iff_receiver_set _ HasAttachedOsDisk_nil HasAttachedOsDisk_some_ok _,
   ok_iff_receiver_set _ HasAttachedOsDiskVMGS_nil HasAttachedOsDiskVMGS_some_ok _,
   ok_iff_receiver_set _ HasDisks_nil (fun h => ⟨_, HasDisks_some h⟩) _⟩

/-- Witness of the amended C9: with both profiles set to their zero values the six
predicates yield booleans. -/
theorem predicates_ok_iff_profiles_set_witness :
    (∃ b, VnetProfile.IsCustomVNET
      (Properties.VnetProfile
        ⟨some emptyVnetProfile, some emptyVMProfile, none, none, none⟩) = Except.ok b) ∧
    (∃ b, VMProfile.HasDisks
      (Properties.VMProfile
        ⟨some emptyVnetProfile, some emptyVMProfile, none, none, none⟩) = Except.ok b) :=
  ⟨(predicates_ok_iff_profiles_set
      ⟨some emptyVnetProfile, some emptyVMProfile, none, none, none⟩).1.mpr (by decide),
   (predicates_ok_iff_profiles_set
      ⟨some emptyVnetProfile, some emptyVMProfile, none, none, none⟩).2.2.2.2.2.mpr
      (by decide)⟩

/-- C10: on every `VnetProfile` value and every `VMProfile` value each of the six predicates
returns a boolean, no absent reference being dereferenced. With `OSImage` absent
`HasAzureGalleryImage` and `HasCustomOsImage` are `false`, with `OSDisk` absent
`HasAttachedOsDisk` and `HasAttachedOsDiskVMGS` are `false`, and on the zero profiles all
six predicates are `false`. -/
theorem predicates_defined_on_all_field_states (p : VnetProfile) (h : VMProfile) :
    ((∃ b, VnetProfile.IsCustomVNET (some p) = Except.ok b) ∧
      (∃ b, VMProfile.HasAzureGalleryImage (some h) = Except.ok b) ∧
      (∃ b, VMProfile.HasCustomOsImage (some h) = Except.ok b) ∧
      (∃ b, VMProfile.HasAttachedOsDisk (some h) = Except.ok b) ∧
      (∃ b, VMProfile.HasAttachedOsDiskVMGS (some h) = Except.ok b) ∧
      (∃ b, VMProfile.HasDisks (some h) = Except.ok b)) ∧
    (h.OSImage = none →
      VMProfile.HasAzureGalleryImage (some h) = Except.ok false ∧
      VMProfile.HasCustomOsImage (some h) = Except.ok false) ∧
    (h.OSDisk = none →
      VMProfile.HasAttachedOsDisk (some h) = Except.ok false ∧
      VMProfile.HasAttachedOsDiskVMGS (some h) = Except.ok false) ∧
    (VnetProfile.IsCustomVNET (some emptyVnetProfile) = Except.ok false ∧
      VMProfile.HasAzureGalleryImage (some emptyVMProfile) = Except.ok false ∧
      VMProfile.HasCustomOsImage (some emptyVMProfile) = Except.ok false ∧
      VMProfile.HasAttachedOsDisk (some emptyVMProfile) = Except.ok false ∧
      VMProfile.HasAttachedOsDiskVMGS (some emptyVMProfile) = Except.ok false ∧
      VMProfile.HasDisks (some emptyVMProfile) = Except.ok false) := by
  refine ⟨⟨⟨_, IsCustomVNET_some p⟩, HasAzureGalleryImage_some_ok h,
      HasCustomOsImage_some_ok h, HasAttachedOsDisk_some_ok h,
      HasAttachedOsDiskVMGS_some_ok h, ⟨_, HasDisks_some h⟩⟩, ?_, ?_, ?_⟩
  · intro hi
    exact ⟨HasAzureGalleryImage_some_none h hi, HasCustomOsImage_some_none h hi⟩
  · intro hd
    exact ⟨HasAttachedOsDisk_some_none h hd, HasAttachedOsDiskVMGS_some_none h hd⟩
  · exact ⟨rfl, rfl, rfl, rfl, rfl, rfl⟩

/-- Witness of C10: a profile with data disks and neither `OSImage` nor `OSDisk` reports no
image and no disk mode. -/
theorem predicates_defined_on_all_field_states_witness :
    (VMProfile.HasAzureGalleryImage (some dataDisksOnlyProfile) = Except.ok false ∧
      VMProfile.HasCustomOsImage (some dataDisksOnlyProfile) = Except.ok false) ∧
    (VMProfile.HasAttachedOsDisk (some dataDisksOnlyProfile) = Except.ok false ∧
      VMProfile.HasAttachedOsDiskVMGS (some dataDisksOnlyProfile) = Except.ok false) :=
  ⟨(predicates_defined_on_all_field_states emptyVnetProfile dataDisksOnlyProfile).2.1 rfl,
   (predicates_defined_on_all_field_states emptyVnetProfile dataDisksOnlyProfile).2.2.1 rfl⟩

/-! ## Independence of the five `VMProfile` predicates -/

/-- C11: the five `VMProfile` predicates are independent checks: for every assignment of
truth values to `HasAzureGalleryImage`, `HasCustomOsImage`, `HasAttachedOsDisk`,
`HasAttachedOsDiskVMGS` and `HasDisks` some `VMProfile` value gets exactly these answers,
among them `HasAttachedOsDiskVMGS` true with `HasAttachedOsDisk` false. -/
theorem every_answer_combination_realisable (gallery custom disk vmgs disks : Bool) :
    (∃ h : VMProfile,
      VMProfile.HasAzureGalleryImage (some h) = Except.ok gallery ∧
      VMProfile.HasCustomOsImage (some h) = Except.ok custom ∧
      VMProfile.HasAttachedOsDisk (some h) = Except.ok disk ∧
      VMProfile.HasAttachedOsDiskVMGS (some h) = Except.ok vmgs ∧
      VMProfile.HasDisks (some h) = Except.ok disks) ∧
    (∃ h : VMProfile,
      VMProfile.HasAttachedOsDiskVMGS (some h) = Except.ok true ∧
      VMProfile.HasAttachedOsDisk (some h) = Except.ok false) := by
  refine ⟨⟨profileWithAnswers gallery custom disk vmgs disks, ?_⟩,
    ⟨profileWithAnswers false false false true false, by decide, by decide⟩⟩
  cases gallery <;> cases custom <;> cases disk <;> cases vmgs <;> cases disks <;> decide

/-! ## The predicates do not validate -/

/-- C14: the predicates depend only on the members they name. Two `VMProfile` values that
agree on `OSImage`, `OSDisk` and `DiskSizesGB` get the same answers from all five
`VMProfile` predicates, whatever their `Name`, `OSType`, `OSName`, `OSDiskType`, `VMSize`,
`Ports`, `HasDNSName`, `SecureBoot` and `VTPM`; two `VnetProfile` values that agree on
`VnetResourceGroup`, `VnetName` and `SubnetName` get the same answer from `IsCustomVNET`,
whatever their `VnetAddress` and `SubnetAddress`. -/
theorem predicates_depend_only_on_named_members :
    (∀ h1 h2 : VMProfile, h1.OSImage = h2.OSImage → h1.OSDisk = h2.OSDisk →
      h1.DiskSizesGB = h2.DiskSizesGB →
      VMProfile.HasAzureGalleryImage (some h1) = VMProfile.HasAzureGalleryImage (some h2) ∧
      VMProfile.HasCustomOsImage (some h1) = VMProfile.HasCustomOsImage (some h2) ∧
      VMProfile.HasAttachedOsDisk (some h1) = VMProfile.HasAttachedOsDisk (some h2) ∧
      VMProfile.HasAttachedOsDiskVMGS (some h1) = VMProfile.HasAttachedOsDiskVMGS (some h2) ∧
      VMProfile.HasDisks (some h1) = VMProfile.HasDisks (some h2)) ∧
    (∀ p1 p2 : VnetProfile, p1.VnetResourceGroup = p2.VnetResourceGroup →
      p1.VnetName = p2.VnetName → p1.SubnetName = p2.SubnetName →
      VnetProfile.IsCustomVNET (some p1) = VnetProfile.IsCustomVNET (some p2)) := by
  constructor
  · intro h1 h2 hi hd hs
    refine ⟨?_, ?_, ?_, ?_, ?_⟩
    · simp only [VMProfile.HasAzureGalleryImage, deref, bind, Except.bind, pure, Except.pure, hi]
    · simp only [VMProfile.HasCustomOsImage, deref, bind, Except.bind, pure, Except.pure, hi]
    · simp only [VMProfile.HasAttachedOsDisk, deref, bind, Except.bind, pure, Except.pure, hd]
    · simp only [VMProfile.HasAttachedOsDiskVMGS, deref, bind, Except.bind, pure, Except.pure,
        hd]
    · simp only [VMProfile.HasDisks, deref, bind, Except.bind, pure, Except.pure, hs]
  · intro p1 p2 h1 h2 h3
    simp only [VnetProfile.IsCustomVNET, deref, bind, Except.bind, pure, Except.pure, h1, h2,
      h3]

/-- Witness of C14: a profile with ports `0`, `70000` and `-1` and every scalar member
changed gets the answers of the validated profile with the same image, disk and data
disks; a vnet profile gets the same answer with and without its address ranges. -/
theorem predicates_depend_only_on_named_members_witness :
    (VMProfile.HasAzureGalleryImage (some validatedProfile)
        = VMProfile.HasAzureGalleryImage (some unvalidatedProfile) ∧
      VMProfile.HasCustomOsImage (some validatedProfile)
        = VMProfile.HasCustomOsImage (some unvalidatedProfile) ∧
      VMProfile.HasAttachedOsDisk (some validatedProfile)
        = VMProfile.HasAttachedOsDisk (some unvalidatedProfile) ∧
      VMProfile.HasAttachedOsDiskVMGS (some validatedProfile)
        = VMProfile.HasAttachedOsDiskVMGS (some unvalidatedProfile) ∧
      VMProfile.HasDisks (some validatedProfile)
        = VMProfile.HasDisks (some unvalidatedProfile)) ∧
    VnetProfile.IsCustomVNET (some ⟨"rg", "vn", "10.0.0.0/16", "sn", "10.0.0.0/24"⟩)
      = VnetProfile.IsCustomVNET (some ⟨"rg", "vn", "", "sn", "not a range"⟩) :=
  ⟨predicates_depend_only_on_named_members.1 validatedProfile unvalidatedProfile rfl rfl rfl,
   predicates_depend_only_on_named_members.2
     ⟨"rg", "vn", "10.0.0.0/16", "sn", "10.0.0.0/24"⟩ ⟨"rg", "vn", "", "sn", "not a range"⟩
     rfl rfl rfl⟩

end Api
